import Mathlib

/-!
Verification of the rental-listing scraping pipeline presented in the
repository (the Python snippets of `rightmove_scraper.py`, `listing.py` and
`sheet.py` quoted in `src/src/components/bio.js`).

The embedding is a shallow one: Python functions become Lean functions,
mutation becomes explicit state passing, and a raised Python exception
becomes an `Except.error` carrying a `PyErr` value.  I/O boundaries
(HTTP fetches, DOM extraction helpers whose bodies are not quoted in the
source) are passed in as explicit function-valued parameters so that the
quoted control flow can be studied for arbitrary behaviours of those
boundaries.
-/

/-- The Python exception values that the quoted code can raise:
`ValueError` (from `strptime` / `int`), `NameError` (an undefined name at
evaluation time), `configparser.NoOptionError` (from `config.get` on a
missing option) and a transport failure raised by `requests.get`. -/
inductive PyErr where
  | valueError (data : String)
  | nameError (missing : String)
  | noOptionError (missing : String)
  | requestError (data : String)
deriving DecidableEq

instance {ε α : Type} [DecidableEq ε] [DecidableEq α] :
    DecidableEq (Except ε α) := fun a b =>
  match a, b with
  | Except.ok x, Except.ok y =>
    match decEq x y with
    | isTrue h => isTrue (h ▸ rfl)
    | isFalse h => isFalse (fun hh => h (by cases hh; rfl))
  | Except.ok _, Except.error _ => isFalse (fun hh => Except.noConfusion hh)
  | Except.error _, Except.ok _ => isFalse (fun hh => Except.noConfusion hh)
  | Except.error x, Except.error y =>
    match decEq x y with
    | isTrue h => isTrue (h ▸ rfl)
    | isFalse h => isFalse (fun hh => h (by cases hh; rfl))

/-- A calendar date as held by Python's `datetime.date`: year, month, day,
with no time-of-day component. -/
structure Date where
  year : Nat
  month : Nat
  day : Nat
deriving DecidableEq

/-- Python's `datetime.datetime` value: a calendar date plus a time of day.
`datetime.datetime.now().date()` drops the time fields. -/
structure PyDateTime where
  date : Date
  hour : Nat := 0
  minute : Nat := 0
  second : Nat := 0
deriving DecidableEq

/-- Gregorian leap-year rule, as used by `datetime`. -/
def isLeap (y : Nat) : Bool :=
  (y % 4 == 0 && y % 100 != 0) || y % 400 == 0

/-- Number of days in a month, as validated by `datetime.date`. -/
def daysInMonth (y m : Nat) : Nat :=
  if m = 2 then (if isLeap y then 29 else 28)
  else if m = 4 ∨ m = 6 ∨ m = 9 ∨ m = 11 then 30
  else 31

/-- The calendar successor of a date (the effect of adding
`datetime.timedelta(days=1)`). -/
def nextDay (d : Date) : Date :=
  if d.day < daysInMonth d.year d.month then ⟨d.year, d.month, d.day + 1⟩
  else if d.month < 12 then ⟨d.year, d.month + 1, 1⟩
  else ⟨d.year + 1, 1, 1⟩

/-- Adding `k` days to a date: `date + datetime.timedelta(days=k)`. -/
def addDays (d : Date) : Nat → Date
  | 0 => d
  | k + 1 => nextDay (addDays d k)

/-- `today + datetime.timedelta(weeks=n)`: a week is exactly 7 days. -/
def addWeeks (d : Date) (n : Nat) : Date :=
  addDays d (7 * n)

/-- Python's ordering on `datetime.date` values: lexicographic on
(year, month, day). -/
def Date.ltb (a b : Date) : Bool :=
  Nat.blt a.year b.year
    || (Nat.beq a.year b.year
        && (Nat.blt a.month b.month
            || (Nat.beq a.month b.month && Nat.blt a.day b.day)))

/-- Value of a list of decimal digit characters. -/
def digitsToNat (cs : List Char) : Nat :=
  cs.foldl (fun acc c => acc * 10 + (c.toNat - 48)) 0

/-- `True` when every character is a decimal digit. -/
def allDigits (cs : List Char) : Bool :=
  cs.all Char.isDigit

/-- The `%d` field of `strptime`: one or two digit characters whose value is
a day number between 1 and 31 (Python's `_strptime` regular expression
`(3[01]|[12]\d|0[1-9]|[1-9])`). -/
def parse_day_field (cs : List Char) : Option Nat :=
  if (cs.length == 1 || cs.length == 2) && allDigits cs then
    let v := digitsToNat cs
    if 1 ≤ v ∧ v ≤ 31 then some v else none
  else none

/-- The `%m` field of `strptime`: one or two digit characters whose value is
a month number between 1 and 12. -/
def parse_month_field (cs : List Char) : Option Nat :=
  if (cs.length == 1 || cs.length == 2) && allDigits cs then
    let v := digitsToNat cs
    if 1 ≤ v ∧ v ≤ 12 then some v else none
  else none

/-- The `%Y` field of `strptime`: exactly four digit characters; the year
must be at least `datetime.MINYEAR = 1`. -/
def parse_year_field (cs : List Char) : Option Nat :=
  if cs.length == 4 && allDigits cs then
    let v := digitsToNat cs
    if 1 ≤ v then some v else none
  else none

/-- Splitting a character sequence on the `/` separator (the shape the
format string `"%d/%m/%Y"` imposes on its input). -/
def splitOnSlash : List Char → List Char → List (List Char)
  | [], acc => [acc.reverse]
  | c :: cs, acc =>
    if c = '/' then acc.reverse :: splitOnSlash cs []
    else splitOnSlash cs (c :: acc)

/-- `datetime.datetime.strptime(x, "%d/%m/%Y").date()` as a total function:
`some d` when the text is a valid day/month/year calendar date, `none` when
`strptime` (or the `datetime.date` constructor, for a day out of range for
its month) would raise `ValueError`. -/
def strptime_dmY (s : String) : Option Date :=
  match splitOnSlash s.data [] with
  | [ds, ms, ys] =>
    match parse_day_field ds, parse_month_field ms, parse_year_field ys with
    | some d, some m, some y =>
      if d ≤ daysInMonth y m then some ⟨y, m, d⟩ else none
    | _, _, _ => none
  | _ => none

/-- `convert_date` from `get_listings_available_after_n_weeks`
(`rightmove_scraper.py`):
`return datetime.datetime.strptime(x, "%d/%m/%Y").date()`.
A text that does not parse as a day/month/year date makes `strptime`
raise `ValueError`; the error payload records the offending text. -/
def convert_date (x : String) : Except PyErr Date :=
  match strptime_dmY x with
  | some d => Except.ok d
  | none => Except.error (PyErr.valueError x)

/-- One scraped property record (`listing.py`).  `Listing(url)` sets only
`url`; `scrape_details` fills the remaining attributes, so they are optional
here.  The three letting-information attributes come from `dict.get` and may
be `None`. -/
structure Listing where
  url : String
  date_scraped : Option String := none
  description : Option String := none
  price : Option String := none
  location : Option String := none
  nearest_stations : List String := []
  date_available : Option String := none
  furnished : Option String := none
  deposit : Option String := none
deriving DecidableEq

/-- Modelled from the spec: `has_date_available` is called in the filter
comprehension but its body is not quoted in the source.  Per the spec's
availability classification (empty/missing is *unspecified*, textual "now"
case-insensitively is *immediate*, any other text is *dated*), a listing has
a date available exactly when its availability text is present, non-empty
and not "now". -/
def Listing.has_date_available (l : Listing) : Bool :=
  match l.date_available with
  | none => false
  | some s => !(s == "" || s.data.map Char.toLower == "now".data)

/-- A Python list comprehension `[x for x in xs if p(x)]` whose predicate
may raise: elements are tested left to right and the first raised exception
aborts the whole comprehension. -/
def list_comp_filter (p : Listing → Except PyErr Bool) :
    List Listing → Except PyErr (List Listing)
  | [] => Except.ok []
  | l :: ls =>
    match p l with
    | Except.error e => Except.error e
    | Except.ok b =>
      match list_comp_filter p ls with
      | Except.error e => Except.error e
      | Except.ok rest => Except.ok (if b then l :: rest else rest)

/-- The per-listing test of the comprehension in
`get_listings_available_after_n_weeks`:
`listing.has_date_available() and convert_daye(listing.date_available) > available_after`.
`and` short-circuits, so a listing without a date available evaluates to
`False`; otherwise the right operand is evaluated, and the name
`convert_daye` is not defined anywhere (the local helper is spelled
`convert_date`), so Python raises `NameError` at that point.  The cutoff
`available_after` is the value the comparison would have used; it is kept
as a parameter because the same single value is supplied for every listing
of the batch. -/
def comprehension_pred (available_after : Date) (l : Listing) :
    Except PyErr Bool :=
  if l.has_date_available then Except.error (PyErr.nameError "convert_daye")
  else Except.ok false

/-- `get_listings_available_after_n_weeks(self, n_weeks, listings)`
(`rightmove_scraper.py`).  An empty input is returned at once.  Otherwise
`today = datetime.datetime.now().date()` reads the clock exactly once
(modelled by the stream `nows` of successive `now()` results, of which only
index 0 is consumed), `available_after = today + timedelta(weeks=n_weeks)`,
and the comprehension filters the listings against that single cutoff. -/
def get_listings_available_after_n_weeks (n_weeks : Nat)
    (nows : Nat → PyDateTime) (listings : List Listing) :
    Except PyErr (List Listing) :=
  if listings.length = 0 then Except.ok listings
  else
    let today := (nows 0).date
    let available_after := addWeeks today n_weeks
    list_comp_filter (comprehension_pred available_after) listings

/-- ASCII whitespace, as stripped by Python's `int(...)`. -/
def isSpaceChar (c : Char) : Bool :=
  c = ' ' || c = '\t' || c = '\n' || c = '\r'

/-- Python's `int(s)` on a configuration string, for the non-negative values
a lead time can take (the lead time is a count of weeks, so the embedding
uses `Nat`): surrounding whitespace is stripped, an optional `+` sign is
accepted, and the remainder must be one or more digits; anything else
raises `ValueError`. -/
def python_int_of_string (s : String) : Option Nat :=
  let t := (s.data.dropWhile isSpaceChar).reverse.dropWhile isSpaceChar
    |>.reverse
  let t := match t with
    | '+' :: rest => rest
    | _ => t
  if t.length != 0 && allDigits t then some (digitsToNat t)
  else none

/-- `filter_listings(self, listings)` (`rightmove_scraper.py`).  The
lead-time option is read with `config.get("filters", "availableAfterNWeeks")`:
when the option is absent `configparser` raises `NoOptionError`; when it is
present, the returned string is tested for truthiness (the empty string is
falsy, so filtering is skipped and the input is returned unchanged), and a
truthy value is converted with `int(...)` (raising `ValueError` when not
numeric) and passed to `get_listings_available_after_n_weeks`. -/
def filter_listings (availableAfterNWeeks : Option String)
    (nows : Nat → PyDateTime) (listings : List Listing) :
    Except PyErr (List Listing) :=
  match availableAfterNWeeks with
  | none => Except.error (PyErr.noOptionError "availableAfterNWeeks")
  | some v =>
    if v = "" then Except.ok listings
    else
      match python_int_of_string v with
      | some n => get_listings_available_after_n_weeks n nows listings
      | none => Except.error (PyErr.valueError v)

/-- The "letting information" block of a listing page, a Python dict with
keys `date_available`, `furnishing` and `deposit`; `dict.get` on a missing
key yields `None`, modelled by `none`. -/
structure LettingInformation where
  date_available : Option String
  furnishing : Option String
  deposit : Option String
deriving DecidableEq

/-- The I/O and DOM boundary of the scraper.  `http_get` is
`requests.get(url).text`: a transport failure raises (an `Except.error`),
while a response body — success status or not — is returned as text
(`requests` does not raise on a non-success status code and the quoted code
never checks one).  The `get_*` extraction helpers are called by the quoted
code but their bodies are not quoted, so they are taken as arbitrary
functions of the fetched document.  `today_string` is
`date.today().strftime('%d/%m/%Y')`. -/
structure ScrapeEnv where
  http_get : String → Except PyErr String
  get_letting_information : String → LettingInformation
  get_description : String → String
  get_price : String → String
  get_address : String → String
  get_nearest_stations : String → List String
  get_location_name : String → String
  get_listing_urls : String → List String
  today_string : String

/-- `Listing.scrape_details` (`listing.py`): fetch the listing page
(`get_dom`, i.e. `requests.get(self.url)` — may raise), look up the letting
information, and set each attribute from the document.  The availability
text is stored verbatim: `self.date_available =
letting_information.get("date_available")`. -/
def scrape_details (env : ScrapeEnv) (l : Listing) : Except PyErr Listing :=
  match env.http_get l.url with
  | Except.error e => Except.error e
  | Except.ok dom =>
    let letting_information := env.get_letting_information dom
    Except.ok { l with
      date_scraped := some env.today_string
      description := some (env.get_description dom)
      price := some (env.get_price dom)
      location := some (env.get_address dom)
      nearest_stations := env.get_nearest_stations dom
      date_available := letting_information.date_available
      furnished := letting_information.furnishing
      deposit := letting_information.deposit }

/-- UTF-8 encoding of one character, as a list of byte values. -/
def utf8_bytes (c : Char) : List Nat :=
  let n := c.toNat
  if n < 128 then [n]
  else if n < 2048 then [192 + n / 64, 128 + n % 64]
  else if n < 65536 then [224 + n / 4096, 128 + (n / 64) % 64, 128 + n % 64]
  else [240 + n / 262144, 128 + (n / 4096) % 64, 128 + (n / 64) % 64,
        128 + n % 64]

/-- Uppercase hexadecimal digit for a value below 16. -/
def hexDigitChar (n : Nat) : Char :=
  if n < 10 then Char.ofNat (48 + n) else Char.ofNat (55 + n)

/-- `%XX` percent-encoding of one byte value. -/
def percent_encode_byte (b : Nat) : String :=
  String.mk ['%', hexDigitChar (b / 16), hexDigitChar (b % 16)]

/-- `urllib.parse.quote_plus` on one character: alphanumerics and
`_ . - ~` pass through, a space becomes `+`, anything else is
percent-encoded byte by byte. -/
def quote_plus_char (c : Char) : String :=
  if c.isAlphanum || c = '_' || c = '.' || c = '-' || c = '~' then
    String.singleton c
  else if c = ' ' then "+"
  else String.join ((utf8_bytes c).map percent_encode_byte)

/-- `urllib.parse.quote_plus` on a string. -/
def quote_plus (s : String) : String :=
  String.join (s.data.map quote_plus_char)

/-- `urllib.parse.urlencode` over an ordered list of key/value pairs. -/
def urlencode (ps : List (String × String)) : String :=
  String.intercalate "&" (ps.map (fun p => quote_plus p.1 ++ "=" ++ quote_plus p.2))

/-- The scraper's configuration as read at `build_search_url`:
`self.base_search_url` and the shared filter parameters held by the
`[filters]` section of the configuration (`config.items('filters')`). -/
structure Scraper where
  base_search_url : String
  filters : List (String × String)

/-- `build_search_url(self, location_identifier)` (`rightmove_scraper.py`):
`parameters = config.items('filters')` builds a fresh list of pairs (that is
`configparser.items` semantics), `parameters.append(...)` mutates only that
fresh list, and the search URL is the base URL followed by the urlencoded
parameters.  The scraper state after the call is returned alongside the URL
to make the absence of mutation of the shared filter set explicit. -/
def build_search_url (sc : Scraper) (location_identifier : String) :
    String × Scraper :=
  let parameters := sc.filters ++ [("locationIdentifier", location_identifier)]
  (sc.base_search_url ++ urlencode parameters, sc)

/-- Modelled from the spec: `remove_duplicate_listings` is called at the end
of `scrape_listings` but its body is not quoted in the source.  Per the
spec it deduplicates the candidate sequence by `url`, keeping the first
occurrence of each URL and otherwise preserving order.  `seen` accumulates
the URLs already kept. -/
def dedupAux (seen : List String) : List Listing → List Listing
  | [] => []
  | l :: ls =>
    if l.url ∈ seen then dedupAux seen ls
    else l :: dedupAux (l.url :: seen) ls

/-- Modelled from the spec: deduplication by `url`, first occurrence kept,
order otherwise preserved (see `dedupAux`). -/
def remove_duplicate_listings (listings : List Listing) : List Listing :=
  dedupAux [] listings

/-- `scrape(self, url)` (`rightmove_scraper.py`): fetch the search result
page (`requests.get(url).text` — a transport failure propagates, a
non-success status body is parsed like any other), read the location name
for the progress message, extract the listing URLs, build a `Listing` per
URL and run `scrape_details` on each in order. -/
def scrape (env : ScrapeEnv) (url : String) : Except PyErr (List Listing) :=
  match env.http_get url with
  | Except.error e => Except.error e
  | Except.ok html =>
    let _location := env.get_location_name html
    let listing_urls := env.get_listing_urls html
    let listings := listing_urls.map (fun u => ({ url := u } : Listing))
    listings.mapM (scrape_details env)

/-- `scrape_listings(self, location_identifiers)` (`rightmove_scraper.py`):
for each identifier in order, build the search URL and extend the
accumulated list with that location's scraped listings; there is no
try/except anywhere in the loop, so any exception raised while processing
one location propagates and aborts the whole call.  Finally the accumulated
listings are deduplicated. -/
def scrape_listings_loop (env : ScrapeEnv) (sc : Scraper)
    (listings : List Listing) : List String → Except PyErr (List Listing)
  | [] => Except.ok listings
  | identifier :: rest =>
    let url := (build_search_url sc identifier).1
    match scrape env url with
    | Except.error e => Except.error e
    | Except.ok scraped =>
      scrape_listings_loop env sc (listings ++ scraped) rest

/-- `scrape_listings(self, location_identifiers)` continued: run the loop
starting from the empty accumulator, then deduplicate the result. -/
def scrape_listings (env : ScrapeEnv) (sc : Scraper)
    (location_identifiers : List String) : Except PyErr (List Listing) :=
  match scrape_listings_loop env sc [] location_identifiers with
  | Except.error e => Except.error e
  | Except.ok listings => Except.ok (remove_duplicate_listings listings)

/-- The Google Sheets worksheet backing the persistence store: an ordered
list of rows, each a list of cell texts.  Row 1 (index 0) is the header
row. -/
structure Sheet where
  rows : List (List String)
deriving DecidableEq

/-- Modelled from the spec: `build_row` iterates `propertyMappings` (not
quoted in the source) to project a listing's attributes into a fixed column
order; per the spec the `PersistedRecord` is a deterministic projection of
the Listing's fields with the `url` in the store's URL column, placed first
here.  `None` attributes are written as empty cells. -/
def build_row (l : Listing) : List String :=
  [l.url, l.date_scraped.getD "", l.description.getD "", l.price.getD "",
   l.location.getD "", String.intercalate ", " l.nearest_stations,
   l.date_available.getD "", l.furnished.getD "", l.deposit.getD ""]

/-- Modelled from the spec: `does_cell_exist_with_value` is called with
`listing.url` but its body is not quoted in the source; per the spec the
existence check is an exact match of the URL against the store's URL column
(the first cell of each row — see `build_row`). -/
def does_cell_exist_with_value (s : Sheet) (v : String) : Bool :=
  s.rows.any (fun r => r.headD "" == v)

/-- `self.worksheet.insert_row(row, 2)` (gspread): the new row is inserted
at spreadsheet row 2, that is directly below the header row and above all
previously inserted rows. -/
def insert_row (s : Sheet) (row : List String) : Sheet :=
  ⟨s.rows.take 1 ++ row :: s.rows.drop 1⟩

/-- The loop body of `Sheet.add_listings` (`sheet.py`) with its two
counters: for each listing in input order, if no cell of the URL column
holds its URL, build its row, insert it at row 2 and count it as written;
otherwise count it as a duplicate. -/
def add_listings_loop (s : Sheet) (written duplicates : Nat) :
    List Listing → (Nat × Nat) × Sheet
  | [] => ((written, duplicates), s)
  | l :: ls =>
    if does_cell_exist_with_value s l.url then
      add_listings_loop s written (duplicates + 1) ls
    else
      add_listings_loop (insert_row s (build_row l)) (written + 1) duplicates ls

/-- `Sheet.add_listings(self, listings)` (`sheet.py`): run the loop with
both counters starting at zero and return `(written, duplicates)` together
with the updated worksheet. -/
def add_listings (s : Sheet) (listings : List Listing) :
    (Nat × Nat) × Sheet :=
  add_listings_loop s 0 0 listings

/-- The run-summary message of `process_listings`
(`rightmove_scraper.py`), after `dedent`: one line per count, interpolating
the eligible count (`len(listings)`), the written count, the worksheet name
and the duplicate count. -/
def build_message (eligible written duplicates : Nat) (sheet_name : String) :
    String :=
  "\n" ++ toString eligible ++ " eligible properties were found.\n"
    ++ toString written ++ " new properties were added to the worksheet "
    ++ sheet_name ++ ".\n"
    ++ toString duplicates
    ++ " properties already existed on the sheet and were ignored.\n"

/-- `process_listings(self, listings)` (`rightmove_scraper.py`): write the
listings to the sheet, compose the summary message, print it, and — only
when the configuration has a `[mailer]` section and `written` is truthy
(non-zero) — construct a `Mailer` and send the message once.  The second
component of the result collects the messages handed to
`Mailer.send_mail`. -/
def process_listings (has_mailer : Bool) (sheet_name : String) (s : Sheet)
    (listings : List Listing) : Sheet × List String :=
  let result := add_listings s listings
  let written := result.1.1
  let duplicates := result.1.2
  let message := build_message listings.length written duplicates sheet_name
  let sent := if has_mailer && written != 0 then [message] else []
  (result.2, sent)

/-- `needle` occurs contiguously inside `hay`. -/
def ContainsSub (hay needle : String) : Prop :=
  ∃ a b : String, hay = a ++ needle ++ b

/-! ### Helper lemmas about the persistence store -/

lemma add_listings_loop_counts (ls : List Listing) :
    ∀ (s : Sheet) (w d : Nat),
      (add_listings_loop s w d ls).1.1 + (add_listings_loop s w d ls).1.2
        = w + d + ls.length := by
  induction ls with
  | nil => intro s w d; simp [add_listings_loop]
  | cons l ls ih =>
    intro s w d
    cases h : does_cell_exist_with_value s l.url
    · simp only [add_listings_loop, h, Bool.false_eq_true, if_false, ih,
        List.length_cons]
      omega
    · simp only [add_listings_loop, h, if_true, ih, List.length_cons]
      omega

lemma does_cell_exist_insert (s : Sheet) (l : Listing) (u : String) :
    does_cell_exist_with_value (insert_row s (build_row l)) u
      = ((l.url == u) || does_cell_exist_with_value s u) := by
  unfold does_cell_exist_with_value insert_row
  conv_rhs =>
    rw [show s.rows = s.rows.take 1 ++ s.rows.drop 1 from
      (List.take_append_drop 1 s.rows).symm]
  simp only [List.any_append, List.any_cons, build_row, List.headD_cons]
  cases h1 : s.rows.take 1 |>.any (fun r => r.headD "" == u) <;>
    cases h2 : s.rows.drop 1 |>.any (fun r => r.headD "" == u) <;>
    cases h3 : l.url == u <;> rfl

lemma add_listings_loop_fresh (ls : List Listing) :
    ∀ (s : Sheet) (w d : Nat),
      (ls.map (fun l => l.url)).Nodup →
      (∀ l ∈ ls, does_cell_exist_with_value s l.url = false) →
      (add_listings_loop s w d ls).1 = (w + ls.length, d)
      ∧ ∀ u : String,
          does_cell_exist_with_value (add_listings_loop s w d ls).2 u
            = ((ls.map (fun l => l.url)).any (fun x => x == u)
               || does_cell_exist_with_value s u) := by
  induction ls with
  | nil => intro s w d _ _; simp [add_listings_loop]
  | cons l ls ih =>
    intro s w d hnodup hfresh
    have hl : does_cell_exist_with_value s l.url = false := hfresh l (by simp)
    simp only [add_listings_loop, hl, Bool.false_eq_true, if_false]
    rw [List.map_cons, List.nodup_cons] at hnodup
    obtain ⟨hheadfresh, hnodup2⟩ := hnodup
    have hfresh2 : ∀ x ∈ ls,
        does_cell_exist_with_value (insert_row s (build_row l)) x.url = false := by
      intro x hx
      rw [does_cell_exist_insert]
      have hne : l.url ≠ x.url := by
        intro hcontra
        exact hheadfresh (hcontra ▸ List.mem_map_of_mem _ hx)
      simp [hfresh x (List.mem_cons_of_mem _ hx), hne]
    obtain ⟨hcount, hmem⟩ := ih (insert_row s (build_row l)) (w + 1) d hnodup2 hfresh2
    constructor
    · rw [hcount]
      simp
      omega
    · intro u
      rw [hmem u, does_cell_exist_insert]
      simp only [List.map_cons, List.any_cons]
      cases h1 : l.url == u <;>
        cases h2 : (ls.map (fun l => l.url)).any (fun x => x == u) <;>
        cases h3 : does_cell_exist_with_value s u <;> rfl

lemma add_listings_loop_all_existing (ls : List Listing) :
    ∀ (s : Sheet) (w d : Nat),
      (∀ l ∈ ls, does_cell_exist_with_value s l.url = true) →
      add_listings_loop s w d ls = ((w, d + ls.length), s) := by
  induction ls with
  | nil => intro s w d _; simp [add_listings_loop]
  | cons l ls ih =>
    intro s w d hall
    have hl : does_cell_exist_with_value s l.url = true := hall l (by simp)
    simp only [add_listings_loop, hl, if_true]
    rw [ih s w (d + 1) (fun x hx => hall x (List.mem_cons_of_mem _ hx))]
    simp only [List.length_cons]
    congr 2
    omega

/-- C10: for every call to `add_listings`, whatever the prior contents of
the worksheet, the returned pair satisfies written + duplicates = length of
the input sequence: each input listing increments exactly one of the two
counters. -/
theorem add_listings_counts_partition (s : Sheet) (listings : List Listing) :
    (add_listings s listings).1.1 + (add_listings s listings).1.2
      = listings.length := by
  simpa using add_listings_loop_counts listings s 0 0

/-- C1: for a sequence of listings with pairwise-distinct URLs none of
which is in the store (per the exact URL-match existence check),
`add_listings` returns `(written, duplicates) = (N, 0)`, and running it
again on the resulting store with the identical sequence returns
`(0, N)`. -/
theorem add_listings_idempotent (s : Sheet) (listings : List Listing)
    (hnodup : (listings.map (fun l => l.url)).Nodup)
    (hfresh : ∀ l ∈ listings, does_cell_exist_with_value s l.url = false) :
    (add_listings s listings).1 = (listings.length, 0)
    ∧ (add_listings (add_listings s listings).2 listings).1
        = (0, listings.length) := by
  obtain ⟨h1, h2⟩ := add_listings_loop_fresh listings s 0 0 hnodup hfresh
  refine ⟨by simpa using h1, ?_⟩
  have hall : ∀ l ∈ listings,
      does_cell_exist_with_value (add_listings s listings).2 l.url = true := by
    intro l hl
    rw [add_listings, h2 l.url]
    have : (listings.map (fun l => l.url)).any (fun x => x == l.url) = true := by
      simp only [List.any_eq_true]
      exact ⟨l.url, List.mem_map_of_mem _ hl, by simp⟩
    simp [this]
  rw [add_listings, add_listings_loop_all_existing listings _ 0 0 hall]
  simp

theorem add_listings_idempotent_witness :
    (add_listings ⟨[["URL"]]⟩ [{ url := "a" }, { url := "b" }]).1 = (2, 0)
    ∧ (add_listings (add_listings ⟨[["URL"]]⟩
          [{ url := "a" }, { url := "b" }]).2
          [{ url := "a" }, { url := "b" }]).1 = (0, 2) :=
  add_listings_idempotent ⟨[["URL"]]⟩ [{ url := "a" }, { url := "b" }]
    (by decide) (by decide)

/-! ### Helper lemmas about same-run deduplication -/

lemma dedupAux_filter (u : String) (ls : List Listing) :
    ∀ seen : List String,
      (dedupAux seen ls).filter (fun l => l.url == u)
        = if u ∈ seen then [] else (ls.filter (fun l => l.url == u)).take 1 := by
  induction ls with
  | nil =>
    intro seen
    by_cases h : u ∈ seen <;> simp [dedupAux, h]
  | cons l ls ih =>
    intro seen
    by_cases hmem : l.url ∈ seen
    · rw [show dedupAux seen (l :: ls) = dedupAux seen ls from by
        simp [dedupAux, hmem]]
      rw [ih seen]
      by_cases hu : u ∈ seen
      · simp [hu]
      · have hne : (l.url == u) = false := by
          simp only [beq_eq_false_iff_ne, ne_eq]
          intro hcontra
          exact hu (hcontra ▸ hmem)
        simp [hu, List.filter_cons, hne]
    · rw [show dedupAux seen (l :: ls) = l :: dedupAux (l.url :: seen) ls from by
        simp [dedupAux, hmem]]
      by_cases hlu : l.url = u
      · subst hlu
        have h1 : (l.url == l.url) = true := by simp
        rw [List.filter_cons_of_pos (by simp), ih (l.url :: seen)]
        simp [hmem, List.filter_cons_of_pos h1]
      · have hne : (l.url == u) = false := by simpa using hlu
        rw [List.filter_cons_of_neg (by simp [hne]), ih (l.url :: seen)]
        have : (u ∈ l.url :: seen) ↔ (u ∈ seen) := by
          simp [List.mem_cons]
          intro hcontra
          exact absurd hcontra.symm hlu
        by_cases hu : u ∈ seen
        · simp [hu, this]
        · rw [if_neg (by simp [this, hu]), if_neg hu]
          simp [List.filter_cons, hne]

lemma dedupAux_sublist (ls : List Listing) :
    ∀ seen : List String, List.Sublist (dedupAux seen ls) ls := by
  induction ls with
  | nil => intro seen; simp [dedupAux]
  | cons l ls ih =>
    intro seen
    simp only [dedupAux]
    split
    · exact (ih seen).cons l
    · exact (ih (l.url :: seen)).cons₂ l

/-- C7: after all locations are processed, the aggregated candidate
sequence is deduplicated by URL: the survivors with a given URL are exactly
the first listing of the input carrying it (so for any input containing
k ≥ 1 listings that share one URL, exactly one survives), and the output is
a sublist of the input, so insertion order is otherwise preserved. -/
theorem dedup_keeps_first_occurrence (listings : List Listing) (u : String)
    (hu : ∃ l ∈ listings, l.url = u) :
    (remove_duplicate_listings listings).filter (fun l => l.url == u)
      = (listings.filter (fun l => l.url == u)).take 1
    ∧ ((remove_duplicate_listings listings).filter (fun l => l.url == u)).length
        = 1
    ∧ List.Sublist (remove_duplicate_listings listings) listings := by
  have hfilter : (remove_duplicate_listings listings).filter (fun l => l.url == u)
      = (listings.filter (fun l => l.url == u)).take 1 := by
    rw [remove_duplicate_listings, dedupAux_filter u listings []]
    simp
  refine ⟨hfilter, ?_, dedupAux_sublist listings []⟩
  rw [hfilter]
  obtain ⟨l, hl, hlu⟩ := hu
  have hne : listings.filter (fun l => l.url == u) ≠ [] := by
    intro hcontra
    have : l ∈ listings.filter (fun l => l.url == u) := by
      rw [List.mem_filter]
      exact ⟨hl, by simp [hlu]⟩
    simp [hcontra] at this
  have hpos : 0 < (listings.filter (fun l => l.url == u)).length :=
    List.length_pos.mpr hne
  rw [List.length_take]
  omega

theorem dedup_keeps_first_occurrence_witness :
    (remove_duplicate_listings
        [{ url := "x" }, { url := "y" }, { url := "x" }]).filter
        (fun l => l.url == "x")
      = (([{ url := "x" }, { url := "y" }, { url := "x" }] : List Listing).filter
          (fun l => l.url == "x")).take 1
    ∧ ((remove_duplicate_listings
        [{ url := "x" }, { url := "y" }, { url := "x" }]).filter
        (fun l => l.url == "x")).length = 1
    ∧ List.Sublist
        (remove_duplicate_listings [{ url := "x" }, { url := "y" }, { url := "x" }])
        [{ url := "x" }, { url := "y" }, { url := "x" }] :=
  dedup_keeps_first_occurrence [{ url := "x" }, { url := "y" }, { url := "x" }]
    "x" (by decide)

/-! ### Availability classification (C2) -/

/-- A concrete scrape environment whose listing page carries the
availability text "Third of May 2020", which is not a `%d/%m/%Y` date. -/
def envRaw : ScrapeEnv where
  http_get := fun _ => Except.ok "page"
  get_letting_information := fun _ => ⟨some "Third of May 2020", none, none⟩
  get_description := fun _ => "desc"
  get_price := fun _ => "1000 pcm"
  get_address := fun _ => "addr"
  get_nearest_stations := fun _ => []
  get_location_name := fun _ => "Loc"
  get_listing_urls := fun _ => []
  today_string := "27/06/2020"

/-- C2 counterexample: the availability value is not classified into a
tagged form — `scrape_details` stores the scraped text verbatim on the
listing — and a text that fails to parse as a day/month/year date does not
degrade to *unspecified*: `convert_date` raises `ValueError` on it. -/
theorem availability_kept_raw_and_parse_raises :
    (scrape_details envRaw { url := "u" }).map (fun l => l.date_available)
      = Except.ok (some "Third of May 2020")
    ∧ convert_date "Third of May 2020"
      = Except.error (PyErr.valueError "Third of May 2020") :=
  ⟨rfl, by decide⟩

/-- C2 amended: for every listing, the availability value is stored
verbatim as the raw text produced by the letting-information lookup (absent
when the block is missing); no tagged classification is performed at scrape
time, and a text that fails to parse as a day/month/year calendar date
makes `convert_date` raise `ValueError` instead of degrading the value to
*unspecified*. -/
theorem availability_raw_string_semantics (env : ScrapeEnv) (l : Listing)
    (html : String) (hfetch : env.http_get l.url = Except.ok html)
    (s : String) (hbad : strptime_dmY s = none) :
    (scrape_details env l).map (fun x => x.date_available)
      = Except.ok (env.get_letting_information html).date_available
    ∧ convert_date s = Except.error (PyErr.valueError s) := by
  constructor
  · rw [scrape_details, hfetch]
    rfl
  · rw [convert_date, hbad]

theorem availability_raw_string_semantics_witness :
    (scrape_details envRaw { url := "u" }).map (fun x => x.date_available)
      = Except.ok (envRaw.get_letting_information "page").date_available
    ∧ convert_date "gibberish" = Except.error (PyErr.valueError "gibberish") :=
  availability_raw_string_semantics envRaw { url := "u" } "page" rfl
    "gibberish" (by decide)

/-! ### The availability filter (C3, C5, C6) -/

/-- A run clock: every `datetime.now()` result is noon on 27 June 2020. -/
def clock2020 : Nat → PyDateTime := fun _ => ⟨⟨2020, 6, 27⟩, 12, 0, 0⟩

/-- A clock on the same calendar date as `clock2020` but just before
midnight. -/
def clockLate : Nat → PyDateTime := fun _ => ⟨⟨2020, 6, 27⟩, 23, 59, 59⟩

/-- A listing whose availability text is the 1 September 2020 — more than
7 weeks after 27 June 2020. -/
def listingSept : Listing := { url := "u1", date_available := some "01/09/2020" }

set_option maxRecDepth 8000 in
/-- C3 (code bug): filtering a listing dated 01/09/2020 with a 7-week lead
time from 27/06/2020 should include it — `convert_date` parses the text to
1 September 2020 and the cutoff 27 June 2020 + 7 weeks is 15 August 2020,
strictly earlier — but the comprehension's comparison is spelled
`convert_daye`, a name that is defined nowhere, so the call raises
`NameError` instead of filtering. -/
theorem filter_boundary_hits_name_error :
    get_listings_available_after_n_weeks 7 clock2020 [listingSept]
      = Except.error (PyErr.nameError "convert_daye")
    ∧ convert_date "01/09/2020" = Except.ok ⟨2020, 9, 1⟩
    ∧ addWeeks ⟨2020, 6, 27⟩ 7 = ⟨2020, 8, 15⟩
    ∧ Date.ltb (addWeeks ⟨2020, 6, 27⟩ 7) ⟨2020, 9, 1⟩ = true :=
  ⟨by decide, by decide, by decide, by decide⟩

/-- C5 counterexample: with no lead-time value configured (the
`availableAfterNWeeks` option absent), `filter_listings` does not return the
input unchanged — `config.get` raises `NoOptionError`. -/
theorem filter_missing_option_raises :
    filter_listings none clock2020 [listingSept]
      = Except.error (PyErr.noOptionError "availableAfterNWeeks")
    ∧ filter_listings none clock2020 [listingSept]
        ≠ Except.ok [listingSept] :=
  ⟨rfl, by decide⟩

/-- C5 amended: when the lead-time option is present but set to the empty
string (a falsy value, so the truthiness guard skips filtering),
`filter_listings` returns the input sequence unchanged — same listings,
same order; when the option is entirely absent the configuration lookup
raises `NoOptionError` instead. -/
theorem filter_empty_option_returns_input (nows : Nat → PyDateTime)
    (listings : List Listing) :
    filter_listings (some "") nows listings = Except.ok listings := rfl

/-- C6: within one call of the availability filter the current date is read
from the clock exactly once, before iterating, and at calendar-date
granularity — the output depends only on the date part of the first clock
sample — and every listing of a non-empty batch is handed to the
comprehension's test with that one precomputed cutoff
(current date + lead time). -/
theorem filter_single_clock_read (n_weeks : Nat) (listings : List Listing)
    (nows nows2 : Nat → PyDateTime)
    (hdate : (nows 0).date = (nows2 0).date) :
    get_listings_available_after_n_weeks n_weeks nows listings
      = get_listings_available_after_n_weeks n_weeks nows2 listings
    ∧ (listings ≠ [] →
        get_listings_available_after_n_weeks n_weeks nows listings
          = list_comp_filter
              (comprehension_pred (addWeeks (nows 0).date n_weeks))
              listings) := by
  constructor
  · rw [get_listings_available_after_n_weeks,
      get_listings_available_after_n_weeks, hdate]
  · intro hne
    have hlen : ¬ listings.length = 0 := by simpa using hne
    rw [get_listings_available_after_n_weeks, if_neg hlen]

theorem filter_single_clock_read_witness :
    get_listings_available_after_n_weeks 7 clock2020 [listingSept]
      = get_listings_available_after_n_weeks 7 clockLate [listingSept]
    ∧ get_listings_available_after_n_weeks 7 clock2020 [listingSept]
        = list_comp_filter
            (comprehension_pred (addWeeks (clock2020 0).date 7))
            [listingSept] :=
  ⟨(filter_single_clock_read 7 [listingSept] clock2020 clockLate rfl).1,
   (filter_single_clock_read 7 [listingSept] clock2020 clockLate rfl).2
     (by decide)⟩

/-! ### Orchestrator fetch-failure behaviour (C4) and search URLs (C8) -/

/-- A concrete environment in which fetching the search page for location
`A` fails with a transport error while every other fetch succeeds and each
result page yields a single listing URL. -/
def envPartial : ScrapeEnv where
  http_get := fun u =>
    if u = "s?locationIdentifier=A" then
      Except.error (PyErr.requestError "connection failed")
    else Except.ok "results"
  get_letting_information := fun _ => ⟨none, none, none⟩
  get_description := fun _ => ""
  get_price := fun _ => ""
  get_address := fun _ => ""
  get_nearest_stations := fun _ => []
  get_location_name := fun _ => "Loc"
  get_listing_urls := fun _ => ["listing1"]
  today_string := "27/06/2020"

/-- The scraper whose base search URL is `s?` with no shared filters. -/
def scraperA : Scraper := ⟨"s?", []⟩

/-- The listing that location `B` yields under `envPartial`. -/
def listingB : Listing where
  url := "listing1"
  date_scraped := some "27/06/2020"
  description := some ""
  price := some ""
  location := some ""
  nearest_stations := []
  date_available := none
  furnished := none
  deposit := none

/-- C4 counterexample: with locations `A` and `B`, where only `A`'s search
fetch fails, the whole `scrape_listings` call aborts with the transport
error — location `B` is never processed — although running `B` alone
succeeds and produces a listing.  The failure of one location is not
isolated and no per-location `FetchError` handling exists. -/
theorem fetch_failure_not_isolated :
    scrape_listings envPartial scraperA ["A", "B"]
      = Except.error (PyErr.requestError "connection failed")
    ∧ scrape_listings envPartial scraperA ["B"] = Except.ok [listingB] :=
  ⟨by decide, by decide⟩

/-- C4 amended: a fetch failure while loading one location's search result
page is not recorded and not skipped: the exception propagates out of
`scrape_listings` and aborts the whole run before any remaining location is
processed (and a non-success HTTP status is not detected as a failure at
all — `requests.get(url).text` returns the body regardless). -/
theorem fetch_failure_aborts_run (env : ScrapeEnv) (sc : Scraper)
    (identifier : String) (rest : List String) (e : PyErr)
    (hfail : env.http_get (build_search_url sc identifier).1
      = Except.error e) :
    scrape_listings env sc (identifier :: rest) = Except.error e := by
  rw [scrape_listings, scrape_listings_loop, scrape, hfail]

theorem fetch_failure_aborts_run_witness :
    envPartial.http_get (build_search_url scraperA "A").1
      = Except.error (PyErr.requestError "connection failed")
    ∧ scrape_listings envPartial scraperA ["A"]
      = Except.error (PyErr.requestError "connection failed") :=
  ⟨by decide,
   fetch_failure_aborts_run envPartial scraperA "A" []
     (PyErr.requestError "connection failed") (by decide)⟩

/-- C8: building a location's search request merges the shared filter
parameters with the location identifier into an independent copy
(`config.items('filters')` returns a fresh list, and `append` mutates only
that copy): the shared filter set is unchanged after the call, and a second
call for another location derives its parameters from the same shared
filters. -/
theorem build_search_url_preserves_filters (sc : Scraper)
    (loc1 loc2 : String) :
    (build_search_url sc loc1).2 = sc
    ∧ (build_search_url sc loc1).1
        = sc.base_search_url
          ++ urlencode (sc.filters ++ [("locationIdentifier", loc1)])
    ∧ (build_search_url (build_search_url sc loc1).2 loc2).1
        = sc.base_search_url
          ++ urlencode (sc.filters ++ [("locationIdentifier", loc2)]) :=
  ⟨rfl, rfl, rfl⟩

/-! ### Notification gating (C9) -/

lemma build_message_contains_eligible (e w d : Nat) (name : String) :
    ContainsSub (build_message e w d name) (toString e) :=
  ⟨"\n", " eligible properties were found.\n" ++ toString w
      ++ " new properties were added to the worksheet " ++ name ++ ".\n"
      ++ toString d
      ++ " properties already existed on the sheet and were ignored.\n",
   by simp [build_message, String.append_assoc]⟩

lemma build_message_contains_written (e w d : Nat) (name : String) :
    ContainsSub (build_message e w d name) (toString w) :=
  ⟨"\n" ++ toString e ++ " eligible properties were found.\n",
   " new properties were added to the worksheet " ++ name ++ ".\n"
      ++ toString d
      ++ " properties already existed on the sheet and were ignored.\n",
   by simp [build_message, String.append_assoc]⟩

lemma build_message_contains_duplicates (e w d : Nat) (name : String) :
    ContainsSub (build_message e w d name) (toString d) :=
  ⟨"\n" ++ toString e ++ " eligible properties were found.\n" ++ toString w
      ++ " new properties were added to the worksheet " ++ name ++ ".\n",
   " properties already existed on the sheet and were ignored.\n",
   by simp [build_message, String.append_assoc]⟩

/-- C9: when the run writes nothing, no message is dispatched; when it
writes at least one listing and a mailer channel is configured, exactly one
message is dispatched, and that message contains the eligible count, the
written count and the duplicate count. -/
theorem notification_gating (has_mailer : Bool) (sheet_name : String)
    (s : Sheet) (listings : List Listing) :
    ((add_listings s listings).1.1 = 0 →
      (process_listings has_mailer sheet_name s listings).2 = [])
    ∧ (1 ≤ (add_listings s listings).1.1 → has_mailer = true →
        (process_listings has_mailer sheet_name s listings).2
          = [build_message listings.length (add_listings s listings).1.1
              (add_listings s listings).1.2 sheet_name]
        ∧ ContainsSub
            (build_message listings.length (add_listings s listings).1.1
              (add_listings s listings).1.2 sheet_name)
            (toString listings.length)
        ∧ ContainsSub
            (build_message listings.length (add_listings s listings).1.1
              (add_listings s listings).1.2 sheet_name)
            (toString (add_listings s listings).1.1)
        ∧ ContainsSub
            (build_message listings.length (add_listings s listings).1.1
              (add_listings s listings).1.2 sheet_name)
            (toString (add_listings s listings).1.2)) := by
  constructor
  · intro h0
    simp [process_listings, h0]
  · intro h1 hm
    have hne : ((add_listings s listings).1.1 != 0) = true := by
      simp only [bne_iff_ne, ne_eq]
      omega
    exact ⟨by simp [process_listings, hm, hne],
      build_message_contains_eligible listings.length
        (add_listings s listings).1.1 (add_listings s listings).1.2 sheet_name,
      build_message_contains_written listings.length
        (add_listings s listings).1.1 (add_listings s listings).1.2 sheet_name,
      build_message_contains_duplicates listings.length
        (add_listings s listings).1.1 (add_listings s listings).1.2 sheet_name⟩

theorem notification_gating_witness :
    (process_listings true "flats" ⟨[["URL"]]⟩ []).2 = []
    ∧ (process_listings true "flats" ⟨[["URL"]]⟩ [{ url := "a" }]).2
      = [build_message ([{ url := "a" }] : List Listing).length
          (add_listings ⟨[["URL"]]⟩ [{ url := "a" }]).1.1
          (add_listings ⟨[["URL"]]⟩ [{ url := "a" }]).1.2 "flats"] :=
  ⟨(notification_gating true "flats" ⟨[["URL"]]⟩ []).1 (by decide),
   ((notification_gating true "flats" ⟨[["URL"]]⟩ [{ url := "a" }]).2
     (by decide) rfl).1⟩
